import Mathlib

/-!
Verification of fs-latency-exporter (src/main.rs) against its specification.

The program is a storage-latency probe: at startup it opens a target file
with O_DIRECT, checks its size, carves a 4096-aligned 4096-byte buffer out
of an 8192-byte allocation, spawns a metrics HTTP server thread, and then
loops forever: pick a random block-aligned offset, seek, read_exact into the
aligned buffer, record either an error count increment or a latency
histogram observation, then sleep for the configured interval.

The shallow embedding below translates the relevant parts of main.rs into
Lean definitions. External library operations that the source calls
(std read_exact, std Duration::from_secs_f32, the prometheus crate's
Counter/Histogram) are modelled by their documented semantics, as noted at
each definition.
-/

namespace FsLatencyExporter

/-- The fixed block size used for I/O granularity and memory alignment
(4096 throughout main.rs). -/
def blockSize : Nat := 4096

/-! ## Offset sampler (main.rs line 160)

`let offset = rng.gen_range(0..file_size / 4096) * 4096;`

`gen_range(0..file_size / 4096)` yields an integer `n` with
`n < file_size / 4096` (uniformity is the rand crate's contract and is not
modelled; we quantify over all `n` the range can produce). -/

/-- The offset computed from the sampled block index `n`: `n * 4096`. -/
def sampleOffset (n : Nat) : Nat := n * 4096

/-! ## Aligned buffer construction (main.rs lines 149-156)

```
let mut buffer = vec![0; 8192];
let ptr: usize = (address of buffer[0]);
let padding = 4096 - ptr % 4096;
&mut buffer[padding..padding + 4096]
assert_eq!(buffer.len(), 4096);
```
-/

/-- Size of the backing allocation (`vec![0; 8192]`). -/
def allocSize : Nat := 8192

/-- The padding computed from the base address of the backing allocation:
`4096 - ptr % 4096`. -/
def padding (ptr : Nat) : Nat := 4096 - ptr % 4096

/-- Start index of the aligned slice inside the backing allocation
(`buffer[padding..padding + 4096]`). -/
def alignedSliceStart (ptr : Nat) : Nat := padding ptr

/-- One-past-the-end index of the aligned slice inside the backing
allocation. -/
def alignedSliceEnd (ptr : Nat) : Nat := padding ptr + 4096

/-- Length of the aligned slice, as checked by the in-code assertion
`assert_eq!(buffer.len(), 4096)`. -/
def alignedLen (ptr : Nat) : Nat := alignedSliceEnd ptr - alignedSliceStart ptr

/-! ## Startup (main.rs lines 96-143)

Order of events in `main` after argument parsing: register the Prometheus
metrics, spawn the metrics server thread, open the target file, read its
metadata, check its size, then enter the probe loop.  Note that the bind of
the listen address happens inside the spawned thread (`warp::serve(routes)
.run(metrics_addr)`, line 113); the main thread never inspects its outcome.
A bind failure panics the spawned thread only (warp's `run` panics when it
cannot bind; a panic in a non-main Rust thread unwinds that thread and does
not terminate the process). -/

/-- Outcome of opening the target and reading its metadata
(main.rs lines 126-139). -/
inductive OpenResult
  | ok (size : Nat)
  | errOpen
  | errMetadata
  deriving DecidableEq

/-- Outcome of the metrics server binding its listen address inside the
spawned thread (main.rs line 113). -/
inductive BindResult
  | ok
  | err
  deriving DecidableEq

/-- What the main thread does at startup: exit with a status code, or enter
the probe loop with the measured file size. -/
inductive StartupOutcome
  | exited (code : Nat)
  | probeLoop (size : Nat)
  deriving DecidableEq

/-- The main thread's startup path (main.rs lines 96-158).  The
`interval` value is carried but never inspected: no validation of the
configured interval happens anywhere before the probe loop.  The
`BindResult` is likewise never inspected by the main thread, because the
bind happens asynchronously in the spawned metrics thread. -/
def startup (openR : OpenResult) (bindR : BindResult) (interval : ℚ) :
    StartupOutcome :=
  match bindR, interval with
  | _, _ =>
    match openR with
    | .errOpen => .exited 1
    | .errMetadata => .exited 1
    | .ok size => if size < 4096 then .exited 1 else .probeLoop size

/-- Whether the spawned metrics server thread is still serving after the
bind: warp's `run` panics on a failed bind, killing only that thread. -/
def metricsThreadServing : BindResult → Bool
  | .ok => true
  | .err => false

/-! ## Metrics registry (main.rs lines 77-93, 168, 172, 176)

The prometheus crate's `Counter` and `Histogram` are external collaborators;
they are modelled by their documented semantics: `errors.inc()` adds one to
the counter, `latency.observe(v)` appends one observation.  The histogram's
cumulative bucket count at an upper bound `b` is the number of observations
`<= b`; the `+Inf` bucket count is the total number of observations. -/

/-- The metrics registry state observable through the exporter: the
`errors_total` counter value and the list of `read_time_seconds`
observations. -/
structure Metrics where
  errors : Nat
  latency : List ℚ
  deriving DecidableEq

/-- The registry at startup: counter 0, no observations. -/
def initMetrics : Metrics := ⟨0, []⟩

/-- The bucket upper bounds configured for `read_time_seconds`
(main.rs lines 83-89), as exact rationals. -/
def bucketBounds : List ℚ :=
  [0.0001,
   0.00025, 0.0005, 0.001,
   0.0025, 0.005, 0.01,
   0.025, 0.05, 0.1,
   0.25, 0.5, 1.0]

/-- Recording one observation into the histogram
(`latency.observe(v)`, main.rs line 172). -/
def observe (obs : List ℚ) (v : ℚ) : List ℚ := obs ++ [v]

/-- Cumulative count of the bucket with upper bound `bound`: the number of
observations less than or equal to `bound` (Prometheus histogram bucket
semantics). -/
def bucketCount (obs : List ℚ) (bound : ℚ) : Nat :=
  (obs.filter (fun v => v ≤ bound)).length

/-- Count of the implicit `+Inf` bucket: the total number of observations,
equal to `read_time_seconds_count`. -/
def infCount (obs : List ℚ) : Nat := obs.length

/-! ## Probe cycle (main.rs lines 158-183)

One loop iteration: sample an offset, seek, read_exact, record, sleep.

`read_exact` is std library code; per its documentation it returns `Ok(())`
exactly when the whole 4096-byte buffer was filled, and an error both on an
I/O error and on EOF before the buffer is full (a short read). -/

/-- The environment-determined outcome of one probe cycle: whether the seek
failed, whether the read hit an I/O error, how many bytes were available at
the offset, and the elapsed latency the timer would measure. -/
structure CycleInput where
  seekErr : Bool
  ioErr : Bool
  avail : Nat
  lat : ℚ
  deriving DecidableEq

/-- Models std `read_exact` on the 4096-byte aligned buffer: returns `true`
(`Ok(())`) exactly when no I/O error occurs and the full 4096 bytes are
available; a short read (`avail < 4096`) is an error. -/
def read_exact_fills (ioErr : Bool) (avail : Nat) : Bool :=
  !ioErr && decide (4096 ≤ avail)

/-- One probe cycle's effect on the metrics registry (main.rs lines
165-179): seek failure increments `errors`; otherwise a fully-filled read
records one latency observation and any read failure increments `errors`. -/
def runCycle (m : Metrics) (c : CycleInput) : Metrics :=
  if c.seekErr then
    { m with errors := m.errors + 1 }
  else if read_exact_fills c.ioErr c.avail then
    { m with latency := m.latency ++ [c.lat] }
  else
    { m with errors := m.errors + 1 }

/-- Whether a cycle fails (seek error, or read error including short
read). -/
def cycleFails (c : CycleInput) : Bool :=
  c.seekErr || !read_exact_fills c.ioErr c.avail

/-- Running a sequence of probe cycles in order. -/
def runCycles (m : Metrics) : List CycleInput → Metrics
  | [] => m
  | c :: cs => runCycles (runCycle m c) cs

/-- Number of failing cycles in a sequence. -/
def failCount (cs : List CycleInput) : Nat :=
  (cs.filter cycleFails).length

/-- Number of succeeding cycles in a sequence. -/
def succCount (cs : List CycleInput) : Nat :=
  (cs.filter (fun c => !cycleFails c)).length

/-- Models std `Duration::from_secs_f32`, called at main.rs line 182: per
its documentation it panics (here `none`) when the input is negative. -/
def from_secs_f32 (secs : ℚ) : Option ℚ :=
  if secs < 0 then none else some secs

/-- Result of one full loop iteration including the Resting sleep. -/
inductive StepResult
  | next (m : Metrics)
  | panicked (m : Metrics)
  deriving DecidableEq

/-- One full loop iteration (main.rs lines 158-183): the probe cycle's
metric updates happen first, then the sleep converts the interval with
`Duration::from_secs_f32`, which panics on a negative interval. -/
def loopStep (interval : ℚ) (m : Metrics) (c : CycleInput) : StepResult :=
  match from_secs_f32 interval with
  | none => .panicked (runCycle m c)
  | some _ => .next (runCycle m c)

/-! ## Helper lemmas -/

/-- One cycle adds one to `errors` exactly when it fails. -/
lemma runCycle_errors (m : Metrics) (c : CycleInput) :
    (runCycle m c).errors = m.errors + (if cycleFails c then 1 else 0) := by
  unfold runCycle cycleFails
  by_cases h1 : c.seekErr <;> by_cases h2 : read_exact_fills c.ioErr c.avail <;>
    simp [h1, h2]

/-- One cycle appends one observation exactly when it succeeds. -/
lemma runCycle_latency_len (m : Metrics) (c : CycleInput) :
    (runCycle m c).latency.length =
      m.latency.length + (if cycleFails c then 0 else 1) := by
  unfold runCycle cycleFails
  by_cases h1 : c.seekErr <;> by_cases h2 : read_exact_fills c.ioErr c.avail <;>
    simp [h1, h2]

lemma failCount_cons (c : CycleInput) (cs : List CycleInput) :
    failCount (c :: cs) = (if cycleFails c then 1 else 0) + failCount cs := by
  by_cases h : cycleFails c <;> (simp [failCount, List.filter_cons, h]; all_goals omega)

lemma succCount_cons (c : CycleInput) (cs : List CycleInput) :
    succCount (c :: cs) = (if cycleFails c then 0 else 1) + succCount cs := by
  by_cases h : cycleFails c <;> (simp [succCount, List.filter_cons, h]; all_goals omega)

/-- Every cycle is counted once: failures plus successes cover the list. -/
lemma failCount_add_succCount (cs : List CycleInput) :
    failCount cs + succCount cs = cs.length := by
  induction cs with
  | nil => simp [failCount, succCount]
  | cons c cs ih =>
    rw [failCount_cons, succCount_cons]
    by_cases h : cycleFails c <;> (simp [h]; all_goals omega)

lemma runCycles_errors (cs : List CycleInput) :
    ∀ m : Metrics, (runCycles m cs).errors = m.errors + failCount cs := by
  induction cs with
  | nil => intro m; simp [runCycles, failCount]
  | cons c cs ih =>
    intro m
    rw [runCycles, ih, runCycle_errors, failCount_cons]
    omega

lemma runCycles_latency_len (cs : List CycleInput) :
    ∀ m : Metrics,
      (runCycles m cs).latency.length = m.latency.length + succCount cs := by
  induction cs with
  | nil => intro m; simp [runCycles, succCount]
  | cons c cs ih =>
    intro m
    rw [runCycles, ih, runCycle_latency_len, succCount_cons]
    by_cases h : cycleFails c <;> (simp [h]; all_goals omega)

/-- Appending an observation adds one to the cumulative count of exactly
the buckets whose bound is at least the observed value. -/
lemma bucketCount_observe (obs : List ℚ) (v b : ℚ) :
    bucketCount (observe obs v) b =
      bucketCount obs b + (if v ≤ b then 1 else 0) := by
  by_cases h : v ≤ b <;>
    simp [bucketCount, observe, List.filter_append, h]

/-! ## Claim theorems -/

/-- C1: after any sequence of N probe cycles of which k fail (seek error,
or read error including a short read), the `errors_total` counter equals k
and the `read_time_seconds` histogram count equals N - k; moreover every
single cycle increments exactly one of the two — either the error counter
goes up by one and the observation list is untouched, or the error counter
is untouched and exactly one observation is added. -/
theorem probe_loop_accounting (cs : List CycleInput) :
    (runCycles initMetrics cs).errors = failCount cs ∧
    (runCycles initMetrics cs).latency.length = cs.length - failCount cs ∧
    ∀ (m : Metrics) (c : CycleInput),
      ((runCycle m c).errors = m.errors + 1 ∧
        (runCycle m c).latency = m.latency) ∨
      ((runCycle m c).errors = m.errors ∧
        (runCycle m c).latency.length = m.latency.length + 1) := by
  refine ⟨?_, ?_, ?_⟩
  · rw [runCycles_errors]; simp [initMetrics]
  · rw [runCycles_latency_len]
    have h := failCount_add_succCount cs
    simp [initMetrics]
    omega
  · intro m c
    unfold runCycle
    by_cases h1 : c.seekErr <;> by_cases h2 : read_exact_fills c.ioErr c.avail <;>
      simp [h1, h2]

/-- C2: for every `fileSize ≥ 4096` and every block index `n` the sampler
can draw (`n < fileSize / 4096`), the produced offset is `n * 4096`, is
block-aligned, and leaves room for a full block before the end of the
file. -/
theorem offset_sampler_bounds (fileSize n : Nat) (_hfs : 4096 ≤ fileSize)
    (hn : n < fileSize / 4096) :
    sampleOffset n = n * 4096 ∧
    sampleOffset n % 4096 = 0 ∧
    sampleOffset n + 4096 ≤ fileSize := by
  refine ⟨rfl, Nat.mul_mod_left n 4096, ?_⟩
  unfold sampleOffset
  omega

/-- Witness for C2 at `fileSize = 8192`, `n = 1`. -/
theorem offset_sampler_bounds_witness :
    sampleOffset 1 = 1 * 4096 ∧
    sampleOffset 1 % 4096 = 0 ∧
    sampleOffset 1 + 4096 ≤ 8192 :=
  offset_sampler_bounds 8192 1 (by decide) (by decide)

/-- C3 counterexample: with the target opened successfully at size 8192,
a failed bind does not terminate the process — the main thread still enters
the probe loop, so the claim (process exits with non-zero status, probe
loop never runs) is false. -/
theorem bind_failure_not_fatal_cex :
    startup (OpenResult.ok 8192) BindResult.err 1 =
      StartupOutcome.probeLoop 8192 ∧
    ∀ code : Nat,
      startup (OpenResult.ok 8192) BindResult.err 1 ≠
        StartupOutcome.exited code := by
  refine ⟨rfl, ?_⟩
  intro code h
  simp [startup] at h

/-- C3 amended: a bind failure kills only the spawned metrics server thread
(warp's run panics there); the main thread never observes the bind outcome,
proceeds exactly as with a successful bind, and in particular still enters
the probe loop whenever the open and size checks pass. -/
theorem bind_failure_isolated (openR : OpenResult) (interval : ℚ)
    (size : Nat) (hsize : 4096 ≤ size) :
    startup openR BindResult.err interval =
      startup openR BindResult.ok interval ∧
    metricsThreadServing BindResult.err = false ∧
    startup (OpenResult.ok size) BindResult.err interval =
      StartupOutcome.probeLoop size := by
  refine ⟨?_, rfl, ?_⟩
  · cases openR <;> rfl
  · simp [startup]
    omega

/-- Witness for C3's amended theorem at `size = 8192`. -/
theorem bind_failure_isolated_witness :
    startup (OpenResult.ok 8192) BindResult.err 1 =
      startup (OpenResult.ok 8192) BindResult.ok 1 ∧
    metricsThreadServing BindResult.err = false ∧
    startup (OpenResult.ok 8192) BindResult.err 1 =
      StartupOutcome.probeLoop 8192 :=
  bind_failure_isolated (OpenResult.ok 8192) 1 8192 (by decide)

/-- C4 counterexample: an unopenable target and a 4095-byte target both
terminate with exit status 1 — the statuses are not distinct from each
other, so the claim's "distinct non-zero exit status" is false. -/
theorem startup_exit_not_distinct_cex :
    startup OpenResult.errOpen BindResult.ok 1 = StartupOutcome.exited 1 ∧
    startup (OpenResult.ok 4095) BindResult.ok 1 = StartupOutcome.exited 1 ∧
    ¬ ∃ c1 c2 : Nat,
        startup OpenResult.errOpen BindResult.ok 1 =
          StartupOutcome.exited c1 ∧
        startup (OpenResult.ok 4095) BindResult.ok 1 =
          StartupOutcome.exited c2 ∧
        c1 ≠ c2 := by
  refine ⟨rfl, by decide, ?_⟩
  rintro ⟨c1, c2, h1, h2, hne⟩
  simp [startup] at h1 h2
  omega

/-- C4 amended: an unopenable target and a too-small target (fileSize <
4096, e.g. exactly 4095 bytes) each terminate the process immediately with
the same non-zero exit status 1, before any probe cycle runs. -/
theorem startup_failures_fatal (bindR : BindResult) (interval : ℚ)
    (size : Nat) (hsize : size < 4096) :
    startup OpenResult.errOpen bindR interval = StartupOutcome.exited 1 ∧
    startup (OpenResult.ok size) bindR interval = StartupOutcome.exited 1 ∧
    (1 : Nat) ≠ 0 ∧
    ∀ s : Nat,
      startup (OpenResult.ok size) bindR interval ≠
        StartupOutcome.probeLoop s := by
  refine ⟨rfl, ?_, by decide, ?_⟩
  · simp [startup, hsize]
  · intro s h
    simp [startup, hsize] at h

/-- Witness for C4's amended theorem at `size = 4095`. -/
theorem startup_failures_fatal_witness :
    startup OpenResult.errOpen BindResult.ok 1 = StartupOutcome.exited 1 ∧
    startup (OpenResult.ok 4095) BindResult.ok 1 = StartupOutcome.exited 1 ∧
    (1 : Nat) ≠ 0 ∧
    ∀ s : Nat,
      startup (OpenResult.ok 4095) BindResult.ok 1 ≠
        StartupOutcome.probeLoop s :=
  startup_failures_fatal BindResult.ok 1 4095 (by decide)

/-- C5: for any base address of the backing allocation and any allocation
length of at least 2 * 4096 (the code allocates exactly 8192), the aligned
slice starts at a 4096-aligned address, has length exactly 4096 (the
in-code assertion), and lies entirely within the allocation. -/
theorem aligned_buffer_ok (ptr allocLen : Nat) (hlen : 2 * 4096 ≤ allocLen) :
    (ptr + padding ptr) % 4096 = 0 ∧
    alignedLen ptr = 4096 ∧
    alignedSliceEnd ptr ≤ allocLen := by
  unfold alignedLen alignedSliceEnd alignedSliceStart padding
  refine ⟨?_, by omega, by omega⟩
  omega

/-- Witness for C5 at `ptr = 12345`, `allocLen = 8192`. -/
theorem aligned_buffer_ok_witness :
    (12345 + padding 12345) % 4096 = 0 ∧
    alignedLen 12345 = 4096 ∧
    alignedSliceEnd 12345 ≤ 8192 :=
  aligned_buffer_ok 12345 8192 (by decide)

/-- C6 counterexample: at the already-aligned base address 4096 the code's
padding is 4096, not 0, yet offset 0 already yields an aligned address —
so the padding is not the smallest offset ≥ 0 achieving alignment. -/
theorem padding_not_least_nonneg_cex :
    padding 4096 = 4096 ∧
    (4096 + 0) % 4096 = 0 ∧
    ¬ ∀ k : Nat, k < padding 4096 → (4096 + k) % 4096 ≠ 0 := by
  refine ⟨by decide, by decide, ?_⟩
  intro h
  exact h 0 (by decide) (by decide)

/-- C6 amended: the padding `4096 - ptr % 4096` is the smallest offset ≥ 1
at which the resulting address is a multiple of 4096; in particular, when
the base address is already 4096-aligned the padding is 4096, not 0. -/
theorem padding_least_positive (ptr : Nat) :
    1 ≤ padding ptr ∧
    (ptr + padding ptr) % 4096 = 0 ∧
    (∀ k : Nat, 1 ≤ k → k < padding ptr → (ptr + k) % 4096 ≠ 0) ∧
    (ptr % 4096 = 0 → padding ptr = 4096) := by
  unfold padding
  refine ⟨by omega, by omega, ?_, by omega⟩
  intro k h1 h2
  omega

/-- Witness for C6's amended theorem at `ptr = 1`, offset `k = 2`. -/
theorem padding_least_positive_witness :
    1 ≤ padding 1 ∧
    (1 + padding 1) % 4096 = 0 ∧
    (1 + 2) % 4096 ≠ 0 ∧
    (4096 % 4096 = 0 → padding 4096 = 4096) :=
  ⟨(padding_least_positive 1).1, (padding_least_positive 1).2.1,
    (padding_least_positive 1).2.2.1 2 (by decide) (by decide),
    (padding_least_positive 4096).2.2.2⟩

/-- C7: in a cycle whose seek fails, `errors` goes up by exactly one, no
latency observation is recorded, the read outcome is never consulted (the
cycle's result is the same for every read outcome, i.e. the read is not
attempted), and the iteration still reaches the Resting sleep and proceeds
to the next cycle. -/
theorem seek_failure_cycle (m : Metrics) (c : CycleInput) (interval : ℚ)
    (hseek : c.seekErr = true) (hint : 0 ≤ interval) :
    (runCycle m c).errors = m.errors + 1 ∧
    (runCycle m c).latency = m.latency ∧
    (∀ c2 : CycleInput, c2.seekErr = true → runCycle m c2 = runCycle m c) ∧
    loopStep interval m c = StepResult.next (runCycle m c) := by
  have hnl : ¬ interval < 0 := not_lt.mpr hint
  refine ⟨by simp [runCycle, hseek], by simp [runCycle, hseek], ?_, ?_⟩
  · intro c2 h2
    simp [runCycle, hseek, h2]
  · simp [loopStep, from_secs_f32, hnl]

/-- Witness for C7 with a concrete seek-failing cycle and interval 1. -/
theorem seek_failure_cycle_witness :
    (runCycle initMetrics ⟨true, false, 0, 0⟩).errors =
      initMetrics.errors + 1 ∧
    (runCycle initMetrics ⟨true, false, 0, 0⟩).latency =
      initMetrics.latency ∧
    (∀ c2 : CycleInput, c2.seekErr = true →
      runCycle initMetrics c2 = runCycle initMetrics ⟨true, false, 0, 0⟩) ∧
    loopStep 1 initMetrics ⟨true, false, 0, 0⟩ =
      StepResult.next (runCycle initMetrics ⟨true, false, 0, 0⟩) :=
  seek_failure_cycle initMetrics ⟨true, false, 0, 0⟩ 1 rfl (by norm_num)

/-- C8: in a cycle whose seek succeeds, a read that does not fill the whole
4096-byte buffer increments `errors` by exactly one and records no
observation; an observation is recorded if and only if the read fills the
whole buffer, and a short read (fewer than 4096 bytes available, even with
no I/O error) counts as a failure. -/
theorem read_failure_cycle (m : Metrics) (c : CycleInput)
    (hseek : c.seekErr = false) :
    (read_exact_fills c.ioErr c.avail = false →
      (runCycle m c).errors = m.errors + 1 ∧
      (runCycle m c).latency = m.latency) ∧
    ((runCycle m c).latency.length = m.latency.length + 1 ↔
      read_exact_fills c.ioErr c.avail = true) ∧
    (c.ioErr = false → c.avail < 4096 →
      read_exact_fills c.ioErr c.avail = false) ∧
    (read_exact_fills c.ioErr c.avail = true ↔
      (c.ioErr = false ∧ 4096 ≤ c.avail)) := by
  refine ⟨?_, ?_, ?_, ?_⟩
  · intro hfill
    simp [runCycle, hseek, hfill]
  · by_cases hfill : read_exact_fills c.ioErr c.avail <;>
      simp [runCycle, hseek, hfill]
  · intro hio hav
    simp [read_exact_fills, hio]
    omega
  · cases hio : c.ioErr <;> simp [read_exact_fills, hio]

/-- Witness for C8 with a concrete short-read cycle (100 bytes available,
no I/O error) and a concrete successful cycle. -/
theorem read_failure_cycle_witness :
    ((runCycle initMetrics ⟨false, false, 100, 0⟩).errors =
        initMetrics.errors + 1 ∧
      (runCycle initMetrics ⟨false, false, 100, 0⟩).latency =
        initMetrics.latency) ∧
    read_exact_fills false 100 = false ∧
    ((runCycle initMetrics ⟨false, false, 8192, 0⟩).latency.length =
        initMetrics.latency.length + 1 ↔
      read_exact_fills false 8192 = true) :=
  ⟨(read_failure_cycle initMetrics ⟨false, false, 100, 0⟩ rfl).1 (by decide),
    (read_failure_cycle initMetrics ⟨false, false, 100, 0⟩ rfl).2.2.1 rfl
      (by decide),
    (read_failure_cycle initMetrics ⟨false, false, 8192, 0⟩ rfl).2.1⟩

/-- C9: the histogram's bucket upper bounds are exactly the thirteen
configured values, and a single observation of 0.0003 seconds adds one to
the cumulative count of exactly those buckets whose bound is at least
0.0005 (the smallest configured bound ≥ 0.0003), leaves the 0.0001 and
0.00025 buckets unchanged, and adds one to the implicit +Inf bucket
(the total observation count). -/
theorem histogram_buckets_cumulative (obs : List ℚ) (b : ℚ)
    (hb : b ∈ bucketBounds) :
    bucketBounds =
      [0.0001, 0.00025, 0.0005, 0.001, 0.0025, 0.005, 0.01,
       0.025, 0.05, 0.1, 0.25, 0.5, 1.0] ∧
    bucketCount (observe obs 0.0003) b =
      bucketCount obs b + (if (0.0005 : ℚ) ≤ b then 1 else 0) ∧
    infCount (observe obs 0.0003) = infCount obs + 1 := by
  refine ⟨rfl, ?_, by simp [infCount, observe]⟩
  rw [bucketCount_observe]
  fin_cases hb <;> norm_num

/-- Witness for C9 at the empty observation list: the 0.001 bucket gains
one and the 0.00025 bucket is unchanged. -/
theorem histogram_buckets_cumulative_witness :
    bucketCount (observe [] 0.0003) (0.001 : ℚ) =
      bucketCount [] (0.001 : ℚ) + 1 ∧
    bucketCount (observe [] 0.0003) (0.00025 : ℚ) =
      bucketCount [] (0.00025 : ℚ) := by
  have h1 :=
    (histogram_buckets_cumulative [] 0.001 (by norm_num [bucketBounds])).2.1
  have h2 :=
    (histogram_buckets_cumulative [] 0.00025 (by norm_num [bucketBounds])).2.1
  norm_num at h1 h2 ⊢
  exact ⟨h1, h2⟩

/-- C10: a negative configured interval is never rejected — startup still
enters the probe loop — and the first loop iteration then panics at the
Resting sleep, after the cycle's metric update, because
`Duration::from_secs_f32` panics on negative input. -/
theorem negative_interval_unvalidated (interval : ℚ) (hneg : interval < 0)
    (c : CycleInput) :
    startup (OpenResult.ok 8192) BindResult.ok interval =
      StartupOutcome.probeLoop 8192 ∧
    from_secs_f32 interval = none ∧
    loopStep interval initMetrics c =
      StepResult.panicked (runCycle initMetrics c) := by
  refine ⟨rfl, ?_, ?_⟩
  · simp [from_secs_f32, hneg]
  · simp [loopStep, from_secs_f32, hneg]

/-- Witness for C10 at interval -1 with a concrete successful cycle. -/
theorem negative_interval_unvalidated_witness :
    startup (OpenResult.ok 8192) BindResult.ok (-1) =
      StartupOutcome.probeLoop 8192 ∧
    from_secs_f32 (-1) = none ∧
    loopStep (-1) initMetrics ⟨false, false, 8192, 0⟩ =
      StepResult.panicked (runCycle initMetrics ⟨false, false, 8192, 0⟩) :=
  negative_interval_unvalidated (-1) (by norm_num) ⟨false, false, 8192, 0⟩

end FsLatencyExporter
